import Mathlib

/-!
Shallow embedding of the `nxp_simtemp` simulated temperature sensor driver
(kernel module source, file `nxp_simtemp.c`).

The embedding models the driver's global state as a record, the sysfs store
handlers (`sampling_ms_store`, `threshold_mC_store`, `mode_store`), the timer
tick (`simtemp_update_temp` with the three mode generators), and the character
device read path (`simtemp_read`).  Machine unsigned counters are `Nat` taken
modulo `2 ^ 32`; C `int` values are `Int`.  The random source of the noisy
generator is an explicit `Nat` argument (the raw `get_random_u32()` value);
the parse step of `kstrtouint` / `kstrtoint` is abstracted as an `Option`
argument (`none` = parse failure).  The `mode` character array is modelled by
its C-string content as a `List Char`; `strcmp` equality on a buffer that may
hold interior NUL bytes is modelled by comparing the prefix before the first
NUL (`cstr`).
-/

namespace Simtemp

/-- Flag bit 0: set on every successful read (`#define NEW_SAMPLE 0x1`). -/
def NEW_SAMPLE : Nat := 1

/-- Flag bit 1: threshold crossed (`#define THRESHOLD_CROSSED 0x2`). -/
def THRESHOLD_CROSSED : Nat := 2

/-- Modulus of 32-bit unsigned counters. -/
def U32 : Nat := 2 ^ 32

/-- `-EINVAL` magnitude. -/
def EINVAL : Int := 22

/-- `-EFAULT` magnitude. -/
def EFAULT : Int := 14

/-- `-ERESTARTSYS` magnitude. -/
def ERESTARTSYS : Int := 512

/-- The driver's mutable global (and function-static) state.

Fields mirror the C globals: the sysfs attribute variables, the statistics
counters, the simulated reading, the sample sequence counter, and the two
function-static variables `last_alert_state` (in `simtemp_read`) and
`direction` (in `simtemp_mode_ramp`).  `mode` holds the C-string content of
the 16-byte `mode` array. -/
structure State where
  sampling_ms : Nat
  threshold_mC : Int
  mode : List Char
  stats_updates : Nat
  stats_alerts : Nat
  stats_last_error : Int
  simtemp_current_mC : Int
  simtemp_sample_seq : Nat
  last_alert_state : Nat
  direction : Int
deriving DecidableEq

/-- State at module load / probe: static initializers of the C file, with
`simtemp_sample_seq` re-set to `0` by `nxp_simtemp_probe`. -/
def initState : State :=
  { sampling_ms := 100
    threshold_mC := 45000
    mode := "normal".toList
    stats_updates := 0
    stats_alerts := 0
    stats_last_error := 0
    simtemp_current_mC := 44000
    simtemp_sample_seq := 0
    last_alert_state := 0
    direction := 1 }

/-- `simtemp_mode_normal`: add 10 mC; wrap to 44000 when the result exceeds
46000. -/
def simtemp_mode_normal (c : Int) : Int :=
  let c1 := c + 10
  if c1 > 46000 then 44000 else c1

/-- `simtemp_mode_noisy`: add `(get_random_u32() % 200) - 100` then clamp to
`[44000, 46000]`.  `r` is the raw random 32-bit value. -/
def simtemp_mode_noisy (c : Int) (r : Nat) : Int :=
  let noise : Int := (r % 200 : Nat) - 100
  let c1 := c + noise
  let c2 := if c1 > 46000 then 46000 else c1
  if c2 < 44000 then 44000 else c2

/-- `simtemp_mode_ramp`: move by `direction * 50`; at 46000 turn down, at
44000 turn up.  Returns the new reading and the new direction. -/
def simtemp_mode_ramp (c d : Int) : Int × Int :=
  let c1 := c + d * 50
  let d1 := if c1 ≥ 46000 then -1 else d
  let d2 := if c1 ≤ 44000 then 1 else d1
  (c1, d2)

/-- `simtemp_update_temp`: the timer tick.  Under the mutex it dispatches the
generator on the stored mode string (no-op for an unrecognized token), then
increments `stats_updates` and `simtemp_sample_seq` (32-bit wrap). -/
def simtemp_update_temp (st : State) (r : Nat) : State :=
  let st1 :=
    if st.mode = "noisy".toList then
      { st with simtemp_current_mC := simtemp_mode_noisy st.simtemp_current_mC r }
    else if st.mode = "ramp".toList then
      let p := simtemp_mode_ramp st.simtemp_current_mC st.direction
      { st with simtemp_current_mC := p.1, direction := p.2 }
    else if st.mode = "normal".toList then
      { st with simtemp_current_mC := simtemp_mode_normal st.simtemp_current_mC }
    else
      st
  { st1 with stats_updates := (st1.stats_updates + 1) % U32
             simtemp_sample_seq := (st1.simtemp_sample_seq + 1) % U32 }

/-- `sampling_ms_store`: reject parse failure (`none`) or the value 0 with
`last_error = -EINVAL`; otherwise commit.  The parsed value is a 32-bit
unsigned integer. -/
def sampling_ms_store (st : State) (v : Option Nat) : State × Bool :=
  match v with
  | none => ({ st with stats_last_error := -EINVAL }, false)
  | some val =>
    if val = 0 then ({ st with stats_last_error := -EINVAL }, false)
    else ({ st with sampling_ms := val }, true)

/-- `threshold_mC_store`: reject parse failure (`none`) with
`last_error = -EINVAL`; otherwise commit the parsed value unconditionally. -/
def threshold_mC_store (st : State) (v : Option Int) : State × Bool :=
  match v with
  | none => ({ st with stats_last_error := -EINVAL }, false)
  | some val => ({ st with threshold_mC := val }, true)

/-- C-string content of a byte buffer: the prefix before the first NUL. -/
def cstr (l : List Char) : List Char :=
  l.takeWhile fun c => c ≠ Char.ofNat 0

/-- The effective C string `mode_store` compares and commits: copy at most 15
bytes of the input buffer into `tmp`, NUL-terminate, overwrite a trailing
newline byte with NUL, and read the result as a C string. -/
def modeEff (buf : List Char) : List Char :=
  let len := min buf.length 15
  let tmp := buf.take len
  let tmp2 := if 0 < len ∧ tmp.getLast? = some '\n' then tmp.take (len - 1) else tmp
  cstr tmp2

/-- `mode_store`: copy at most 15 bytes of the input buffer, NUL-terminate,
strip one trailing newline byte, then `strcmp` the buffer against the three
valid tokens; commit via `strcpy` on match, otherwise set
`last_error = -EINVAL` and reject. -/
def mode_store (st : State) (buf : List Char) : State × Bool :=
  let eff := modeEff buf
  if eff = "normal".toList ∨ eff = "noisy".toList ∨ eff = "ramp".toList then
    ({ st with mode := eff }, true)
  else
    ({ st with stats_last_error := -EINVAL }, false)

/-- The packed `struct simtemp_sample`: `__u64 timestamp_ns; __s32 temp_mC;
__u32 flags;`. -/
structure SimtempSample where
  timestamp_ns : Nat
  temp_mC : Int
  flags : Nat
deriving DecidableEq

/-- Little-endian byte serialization of `n` into `w` bytes. -/
def leBytes (w n : Nat) : List Nat :=
  (List.range w).map fun i => n / 256 ^ i % 256

/-- Little-endian two's-complement serialization of a signed 32-bit value. -/
def s32Bytes (v : Int) : List Nat :=
  leBytes 4 (v % (2 ^ 32 : Int)).toNat

/-- The 16 bytes of a packed sample record: `timestamp_ns` at offset 0,
`temp_mC` at offset 8, `flags` at offset 12, little-endian. -/
def sampleBytes (s : SimtempSample) : List Nat :=
  leBytes 8 (s.timestamp_ns % 2 ^ 64) ++ s32Bytes s.temp_mC ++ leBytes 4 (s.flags % U32)

/-- Outcome of a `read` call: either the delivered bytes together with the
returned byte count, or a negative errno. -/
inductive ReadResult where
  | ok : List Nat → Nat → ReadResult
  | err : Int → ReadResult
deriving DecidableEq

/-- Alert polarity at materialization: `(simtemp_current_mC >= threshold_mC)
? 1 : 0`. -/
def alertOf (st : State) : Nat :=
  if st.simtemp_current_mC ≥ st.threshold_mC then 1 else 0

/-- Flags of the materialized record: `NEW_SAMPLE`, or-ed with
`THRESHOLD_CROSSED` when the alert polarity is 1. -/
def flagsOf (st : State) : Nat :=
  if alertOf st = 1 then Nat.lor NEW_SAMPLE THRESHOLD_CROSSED else NEW_SAMPLE

/-- The edge-detection block of `simtemp_read` (lines under the engine
mutex): when the current polarity differs from the function-static
`last_alert_state`, increment `stats_alerts` and adopt the new polarity. -/
def simtemp_materialize (st : State) : State :=
  if alertOf st ≠ st.last_alert_state then
    { st with stats_alerts := (st.stats_alerts + 1) % U32
              last_alert_state := alertOf st }
  else
    st

/-- `simtemp_read`: the character-device read.  `intr` tells whether the
blocking wait was interrupted by a signal; `count` is the consumer buffer
size; `copyOk` tells whether `copy_to_user` succeeded; `ts` is the
`ktime_get_ns()` value at materialization.  On interruption set
`last_error = -ERESTARTSYS` and fail.  Otherwise materialize the sample and
run edge detection, then fail with `-EINVAL` when the buffer is smaller than
the 16-byte record, fail with `-EFAULT` when the copy fails, and otherwise
deliver the 16 record bytes and return 16. -/
def simtemp_read (st : State) (intr : Bool) (count : Nat) (copyOk : Bool)
    (ts : Nat) : State × ReadResult :=
  if intr then
    ({ st with stats_last_error := -ERESTARTSYS }, .err (-ERESTARTSYS))
  else
    let smp : SimtempSample := ⟨ts, st.simtemp_current_mC, flagsOf st⟩
    let st1 := simtemp_materialize st
    if count < 16 then
      ({ st1 with stats_last_error := -EINVAL }, .err (-EINVAL))
    else if copyOk then
      (st1, .ok (sampleBytes smp) 16)
    else
      ({ st1 with stats_last_error := -EFAULT }, .err (-EFAULT))

/-- States reachable from the probe-time initial state by any sequence of
ticks, sysfs configuration writes, and reads. -/
inductive Reachable : State → Prop where
  | init : Reachable initState
  | tick : ∀ {s : State} (r : Nat), Reachable s → Reachable (simtemp_update_temp s r)
  | set_sampling : ∀ {s : State} (v : Option Nat), Reachable s →
      Reachable (sampling_ms_store s v).1
  | set_threshold : ∀ {s : State} (v : Option Int), Reachable s →
      Reachable (threshold_mC_store s v).1
  | set_mode : ∀ {s : State} (buf : List Char), Reachable s →
      Reachable (mode_store s buf).1
  | read : ∀ {s : State} (intr : Bool) (count : Nat) (copyOk : Bool) (ts : Nat),
      Reachable s → Reachable (simtemp_read s intr count copyOk ts).1

/-- `K` ticks applied to a state, driven by a list of raw random values (one
per tick). -/
def ticksFrom (st : State) (rs : List Nat) : State :=
  rs.foldl simtemp_update_temp st

/-- The claim-side notion of "input with a single trailing newline
stripped". -/
def stripNewline (s : List Char) : List Char :=
  if s ≠ [] ∧ s.getLast? = some '\n' then s.dropLast else s

/-! ## Helper lemmas -/

theorem cstr_of_nulfree (l : List Char) (h : Char.ofNat 0 ∉ l) : cstr l = l := by
  induction l with
  | nil => rfl
  | cons a t ih =>
    simp only [List.mem_cons, not_or] at h
    have ih2 := ih h.2
    simp only [cstr] at ih2 ⊢
    rw [List.takeWhile_cons_of_pos (by simp [Ne.symm h.1]), ih2]

theorem invariant_step_fold (P : State → Prop)
    (hstep : ∀ (st : State) (r : Nat), P st → P (simtemp_update_temp st r)) :
    ∀ (rs : List Nat) (st : State), P st → P (ticksFrom st rs) := by
  intro rs
  induction rs with
  | nil => intro st h; exact h
  | cons r rs ih => intro st h; exact ih _ (hstep st r h)

theorem normal_step_bounds (c : Int) (h1 : 44000 ≤ c) (h2 : c ≤ 46000) :
    44000 ≤ simtemp_mode_normal c ∧ simtemp_mode_normal c ≤ 46000 := by
  simp only [simtemp_mode_normal]
  split_ifs <;> omega

theorem noisy_step_bounds (c : Int) (r : Nat) :
    44000 ≤ simtemp_mode_noisy c r ∧ simtemp_mode_noisy c r ≤ 46000 := by
  simp only [simtemp_mode_noisy]
  split_ifs <;> omega

/-- Invariant of the ramp generator: reading within bounds, a multiple of 50,
direction in `{+1, -1}`, and the direction already turned at either rail. -/
def RampInv (c d : Int) : Prop :=
  44000 ≤ c ∧ c ≤ 46000 ∧ c % 50 = 0 ∧ (d = 1 ∨ d = -1) ∧
    (c = 46000 → d = -1) ∧ (c = 44000 → d = 1)

theorem ramp_step_inv (c d : Int) (h : RampInv c d) :
    RampInv (simtemp_mode_ramp c d).1 (simtemp_mode_ramp c d).2 := by
  simp only [RampInv, simtemp_mode_ramp] at h ⊢
  split_ifs <;> omega

/-- Tick invariant for NORMAL mode. -/
def NormalInv (st : State) : Prop :=
  st.mode = "normal".toList ∧ 44000 ≤ st.simtemp_current_mC ∧
    st.simtemp_current_mC ≤ 46000

theorem normal_tick_inv (st : State) (r : Nat) (h : NormalInv st) :
    NormalInv (simtemp_update_temp st r) := by
  obtain ⟨hm, h1, h2⟩ := h
  have hb := normal_step_bounds st.simtemp_current_mC h1 h2
  unfold simtemp_update_temp
  rw [if_neg (by rw [hm]; decide), if_neg (by rw [hm]; decide), if_pos hm]
  exact ⟨hm, hb.1, hb.2⟩

/-- Tick invariant for RAMP mode. -/
def RampModeInv (st : State) : Prop :=
  st.mode = "ramp".toList ∧ RampInv st.simtemp_current_mC st.direction

theorem ramp_tick_inv (st : State) (r : Nat) (h : RampModeInv st) :
    RampModeInv (simtemp_update_temp st r) := by
  obtain ⟨hm, hi⟩ := h
  have hb := ramp_step_inv st.simtemp_current_mC st.direction hi
  unfold simtemp_update_temp
  rw [if_neg (by rw [hm]; decide), if_pos hm]
  exact ⟨hm, hb⟩

/-- Tick invariant for NOISY mode. -/
def NoisyInv (st : State) : Prop :=
  st.mode = "noisy".toList ∧ 44000 ≤ st.simtemp_current_mC ∧
    st.simtemp_current_mC ≤ 46000

theorem noisy_tick_inv (st : State) (r : Nat) (h : NoisyInv st) :
    NoisyInv (simtemp_update_temp st r) := by
  obtain ⟨hm, -, -⟩ := h
  have hb := noisy_step_bounds st.simtemp_current_mC r
  unfold simtemp_update_temp
  rw [if_pos hm]
  exact ⟨hm, hb.1, hb.2⟩

theorem modeEff_of_short (buf : List Char) (hn : Char.ofNat 0 ∉ buf)
    (hlen : buf.length ≤ 15) : modeEff buf = stripNewline buf := by
  simp only [modeEff, stripNewline]
  rw [Nat.min_eq_left hlen, List.take_length]
  by_cases hNL : buf.getLast? = some '\n'
  · have hne : buf ≠ [] := by rintro rfl; simp at hNL
    rw [if_pos ⟨List.length_pos.mpr hne, hNL⟩, if_pos ⟨hne, hNL⟩,
      ← List.dropLast_eq_take]
    exact cstr_of_nulfree _ (fun hc => hn (List.dropLast_subset buf hc))
  · rw [if_neg (by tauto), if_neg (by tauto)]
    exact cstr_of_nulfree _ hn

theorem modeEff_of_long (buf : List Char) (hn : Char.ofNat 0 ∉ buf)
    (hlen : 16 ≤ buf.length) : 14 ≤ (modeEff buf).length := by
  simp only [modeEff]
  rw [Nat.min_eq_right (by omega)]
  have hsub : Char.ofNat 0 ∉ buf.take 15 := fun hc => hn (List.take_subset _ _ hc)
  have hl15 : (buf.take 15).length = 15 := by
    rw [List.length_take]; omega
  split_ifs with h
  · rw [cstr_of_nulfree _ (fun hc => hsub (List.take_subset _ _ hc)),
      List.length_take]
    omega
  · rw [cstr_of_nulfree _ hsub, hl15]; omega

/-! ## Claim theorems -/

/-- C1: the claim says alert-edge state is kept per consumer session and a
read on one session never changes another session's recorded polarity.  In
the code `last_alert_state` is a single function-static variable shared by
every session.  At a state whose polarity is 1 while the shared recorded
polarity is 0, a read on session A flips the one shared recorded polarity to
1 and counts one alert; the subsequent first read on session B then finds the
recorded polarity already flipped by A's read and counts no alert of its own:
`alerts` stays 1 after both reads instead of one edge per session. -/
theorem C1_alert_state_shared_across_sessions :
    ({ initState with threshold_mC := 44000 } : State).last_alert_state = 0 ∧
    (simtemp_read { initState with threshold_mC := 44000 } false 16 true
        1000).1.last_alert_state = 1 ∧
    (simtemp_read { initState with threshold_mC := 44000 } false 16 true
        1000).1.stats_alerts = 1 ∧
    (simtemp_read (simtemp_read { initState with threshold_mC := 44000 } false 16
        true 1000).1 false 16 true 2000).1.last_alert_state = 1 ∧
    (simtemp_read (simtemp_read { initState with threshold_mC := 44000 } false 16
        true 1000).1 false 16 true 2000).1.stats_alerts = 1 := by
  decide

/-- C2 counterexample: the claim says the threshold setter rejects values
outside `[-20000, 60000]`; the code accepts `60001`, commits it, and leaves
`last_error` untouched. -/
theorem C2_counterexample_60001_accepted :
    (threshold_mC_store initState (some 60001)).2 = true ∧
    (threshold_mC_store initState (some 60001)).1.threshold_mC = 60001 ∧
    (threshold_mC_store initState (some 60001)).1.stats_last_error = 0 := by
  decide

/-- C2 (amended): the threshold setter performs no range validation: every
successfully parsed integer is accepted and committed with `last_error`
untouched, and only a parse failure rejects, leaving `threshold_mC` unchanged
and setting `last_error` to INVALID. -/
theorem C2_threshold_store_commits_any_parsed_int (st : State) (v : Int) :
    threshold_mC_store st (some v) = ({ st with threshold_mC := v }, true) ∧
    threshold_mC_store st none =
      ({ st with stats_last_error := -EINVAL }, false) :=
  ⟨rfl, rfl⟩

/-- C3 counterexample: the claim says the period setter rejects values above
10000; the code accepts `10001`, commits it, and leaves `last_error`
untouched. -/
theorem C3_counterexample_10001_accepted :
    (sampling_ms_store initState (some 10001)).2 = true ∧
    (sampling_ms_store initState (some 10001)).1.sampling_ms = 10001 ∧
    (sampling_ms_store initState (some 10001)).1.stats_last_error = 0 := by
  decide

/-- C3 (amended): the period setter accepts and commits a parsed value `v`
iff `v ≠ 0` (there is no upper bound); `v = 0` or a parse failure rejects,
leaving `sampling_ms` unchanged and setting `last_error` to INVALID. -/
theorem C3_sampling_store_accepts_iff_nonzero (st : State) (v : Nat) :
    ((sampling_ms_store st (some v)).2 = true ↔ 1 ≤ v) ∧
    sampling_ms_store st (some v) =
      (if v = 0 then ({ st with stats_last_error := -EINVAL }, false)
       else ({ st with sampling_ms := v }, true)) ∧
    sampling_ms_store st none =
      ({ st with stats_last_error := -EINVAL }, false) := by
  refine ⟨?_, rfl, rfl⟩
  simp only [sampling_ms_store]
  split_ifs with h <;> simp [h]
  omega

/-- C4 counterexample: the claim says a read failing with BUFFER_TOO_SMALL
leaves the session's recorded alert polarity unchanged.  In the code the
edge-detection update runs at materialization, before the buffer-size check:
with polarity 1 and recorded state 0, a read with an 8-byte buffer fails with
`-EINVAL` yet flips `last_alert_state` to 1 and increments `alerts`. -/
theorem C4_counterexample_failed_read_updates_state :
    ({ initState with threshold_mC := 44000 } : State).last_alert_state = 0 ∧
    (simtemp_read { initState with threshold_mC := 44000 } false 8 true 0).2 =
      .err (-EINVAL) ∧
    (simtemp_read { initState with threshold_mC := 44000 } false 8 true
        0).1.last_alert_state = 1 ∧
    (simtemp_read { initState with threshold_mC := 44000 } false 8 true
        0).1.stats_alerts = 1 := by
  decide

/-- C4 (amended): BUFFER_TOO_SMALL and TRANSPORT failures set `last_error`
but do not roll back the alert-edge update: the failed call's final state is
exactly the materialized state (edge detection already applied) with
`last_error` overwritten — materialization, not delivery, is the commit
point.  (No per-session sequence cursor exists to advance: each read
re-samples the live sequence counter on entry.) -/
theorem C4_failed_delivery_keeps_materialized_state (st : State) (count : Nat)
    (copyOk : Bool) (ts : Nat) :
    (count < 16 →
      simtemp_read st false count copyOk ts =
        ({ simtemp_materialize st with stats_last_error := -EINVAL },
          .err (-EINVAL))) ∧
    (16 ≤ count → copyOk = false →
      simtemp_read st false count copyOk ts =
        ({ simtemp_materialize st with stats_last_error := -EFAULT },
          .err (-EFAULT))) := by
  constructor
  · intro h
    simp [simtemp_read, h]
  · intro h1 h2
    subst h2
    simp [simtemp_read, Nat.not_lt.mpr h1]

/-- Witness for the amended C4 theorem at a concrete input. -/
theorem C4_witness :
    (8 < 16) ∧
    simtemp_read { initState with threshold_mC := 44000 } false 8 true 0 =
      ({ simtemp_materialize { initState with threshold_mC := 44000 } with
          stats_last_error := -EINVAL }, .err (-EINVAL)) :=
  ⟨by decide,
    (C4_failed_delivery_keeps_materialized_state
      { initState with threshold_mC := 44000 } 8 true 0).1 (by decide)⟩

/-- C5 counterexample: the claim says an INTERRUPTED read leaves `last_error`
unchanged; in the code an interrupted wait sets
`stats_last_error = -ERESTARTSYS` (here starting from `last_error = 0`). -/
theorem C5_counterexample_interrupt_mutates_last_error :
    initState.stats_last_error = 0 ∧
    (simtemp_read initState true 16 true 0).1.stats_last_error =
      -ERESTARTSYS ∧
    -ERESTARTSYS ≠ initState.stats_last_error := by
  decide

/-- C5 (amended): an interrupted read fails with `-ERESTARTSYS` and DOES
update `last_error` to `-ERESTARTSYS`, touching nothing else; so INVALID,
BUFFER_TOO_SMALL, TRANSPORT and INTERRUPTED all update `last_error` (the
read path has no SHUTDOWN or NO_MEMORY outcome at all). -/
theorem C5_interrupted_sets_last_error (st : State) (count : Nat)
    (copyOk : Bool) (ts : Nat) :
    simtemp_read st true count copyOk ts =
      ({ st with stats_last_error := -ERESTARTSYS }, .err (-ERESTARTSYS)) :=
  rfl

/-- C6: on every tick the `updates` counter and `sample_seq` each increase by
exactly one (below the 32-bit wrap), for every stored mode; and when the
stored mode token is unrecognized the generator is a no-op (`current_mC`
unchanged) while the tick still counts as a produced sample. -/
theorem C6_tick_increments_counters (st : State) (r : Nat)
    (h1 : st.stats_updates + 1 < U32) (h2 : st.simtemp_sample_seq + 1 < U32) :
    (simtemp_update_temp st r).stats_updates = st.stats_updates + 1 ∧
    (simtemp_update_temp st r).simtemp_sample_seq =
      st.simtemp_sample_seq + 1 ∧
    (st.mode ≠ "noisy".toList → st.mode ≠ "ramp".toList →
      st.mode ≠ "normal".toList →
      (simtemp_update_temp st r).simtemp_current_mC =
        st.simtemp_current_mC) := by
  unfold simtemp_update_temp
  split_ifs with hA hB hC <;>
    exact ⟨Nat.mod_eq_of_lt h1, Nat.mod_eq_of_lt h2, by simp_all⟩

/-- Witness for C6 at a concrete state with an unrecognized mode token. -/
theorem C6_witness :
    ({ initState with mode := "bogus".toList } : State).stats_updates + 1 <
      U32 ∧
    ({ initState with mode := "bogus".toList } : State).simtemp_sample_seq +
      1 < U32 ∧
    ((simtemp_update_temp { initState with mode := "bogus".toList }
        7).stats_updates =
      ({ initState with mode := "bogus".toList } : State).stats_updates + 1 ∧
    (simtemp_update_temp { initState with mode := "bogus".toList }
        7).simtemp_sample_seq =
      ({ initState with mode := "bogus".toList } : State).simtemp_sample_seq +
        1 ∧
    (({ initState with mode := "bogus".toList } : State).mode ≠
        "noisy".toList →
      ({ initState with mode := "bogus".toList } : State).mode ≠
        "ramp".toList →
      ({ initState with mode := "bogus".toList } : State).mode ≠
        "normal".toList →
      (simtemp_update_temp { initState with mode := "bogus".toList }
          7).simtemp_current_mC =
        ({ initState with mode := "bogus".toList } :
          State).simtemp_current_mC)) :=
  ⟨by decide, by decide,
    C6_tick_increments_counters { initState with mode := "bogus".toList } 7
      (by decide) (by decide)⟩

/-- C7: starting from the initial reading 44000, after any number of ticks
performed entirely in one mode, `current_mC` stays within the declared
bounds: [44000, 46010] for NORMAL, [44000, 46000] for RAMP, and
[44000, 46000] for NOISY, for every sequence of raw random values. -/
theorem C7_mode_bounds (rs : List Nat) :
    (44000 ≤ (ticksFrom initState rs).simtemp_current_mC ∧
      (ticksFrom initState rs).simtemp_current_mC ≤ 46010) ∧
    (44000 ≤ (ticksFrom { initState with mode := "ramp".toList }
        rs).simtemp_current_mC ∧
      (ticksFrom { initState with mode := "ramp".toList }
        rs).simtemp_current_mC ≤ 46000) ∧
    (44000 ≤ (ticksFrom { initState with mode := "noisy".toList }
        rs).simtemp_current_mC ∧
      (ticksFrom { initState with mode := "noisy".toList }
        rs).simtemp_current_mC ≤ 46000) := by
  have hn := invariant_step_fold NormalInv normal_tick_inv rs initState
    ⟨rfl, by decide, by decide⟩
  have hr := invariant_step_fold RampModeInv ramp_tick_inv rs
    { initState with mode := "ramp".toList }
    ⟨rfl, by show RampInv 44000 1; unfold RampInv; omega⟩
  have hy := invariant_step_fold NoisyInv noisy_tick_inv rs
    { initState with mode := "noisy".toList }
    ⟨rfl, by decide, by decide⟩
  refine ⟨⟨hn.2.1, ?_⟩, ⟨hr.2.1, hr.2.2.1⟩, ⟨hy.2.1, hy.2.2⟩⟩
  have := hn.2.2
  omega

/-- C8 counterexample: the code accepts the 7-byte input consisting of
"normal" plus a NUL byte, because `strcmp` stops at the NUL; yet that input,
after stripping a trailing newline, is not exactly one of the three valid
tokens, so the claim as stated says it must be rejected. -/
theorem C8_counterexample_embedded_nul_accepted :
    (mode_store initState ("normal".toList ++ [Char.ofNat 0])).2 = true ∧
    (mode_store initState ("normal".toList ++ [Char.ofNat 0])).1.mode =
      "normal".toList ∧
    stripNewline ("normal".toList ++ [Char.ofNat 0]) ≠ "normal".toList ∧
    stripNewline ("normal".toList ++ [Char.ofNat 0]) ≠ "noisy".toList ∧
    stripNewline ("normal".toList ++ [Char.ofNat 0]) ≠ "ramp".toList := by
  decide

/-- C8 (amended): for every input buffer without NUL bytes the claim holds:
the setter accepts iff the input, after stripping a single trailing newline,
is exactly "normal", "noisy" or "ramp" (case-sensitive); on accept the
stripped token is committed and `last_error` is untouched; on reject the
stored mode is unchanged and `last_error` is set to INVALID.  Inputs
containing a NUL byte are instead compared by their C-string prefix before
the first NUL, after truncation to 15 bytes. -/
theorem C8_mode_store_nulfree (st : State) (buf : List Char)
    (hn : Char.ofNat 0 ∉ buf) :
    ((mode_store st buf).2 = true ↔
      (stripNewline buf = "normal".toList ∨
        stripNewline buf = "noisy".toList ∨
        stripNewline buf = "ramp".toList)) ∧
    ((mode_store st buf).2 = true →
      (mode_store st buf).1 = { st with mode := stripNewline buf }) ∧
    ((mode_store st buf).2 = false →
      (mode_store st buf).1 = { st with stats_last_error := -EINVAL }) := by
  by_cases hlen : buf.length ≤ 15
  · have he := modeEff_of_short buf hn hlen
    simp only [mode_store, he]
    split_ifs with h
    · exact ⟨iff_of_true rfl h, fun _ => rfl, by simp⟩
    · exact ⟨iff_of_false (by simp) h, by simp, fun _ => rfl⟩
  · push_neg at hlen
    have h14 := modeEff_of_long buf hn (by omega)
    have hsl : 15 ≤ (stripNewline buf).length := by
      simp only [stripNewline]
      split_ifs with h
      · rw [List.length_dropLast]; omega
      · omega
    have hne : ¬(modeEff buf = "normal".toList ∨
        modeEff buf = "noisy".toList ∨ modeEff buf = "ramp".toList) := by
      rintro (h | h | h) <;> rw [h] at h14 <;> revert h14 <;> decide
    have hcl : ¬(stripNewline buf = "normal".toList ∨
        stripNewline buf = "noisy".toList ∨
        stripNewline buf = "ramp".toList) := by
      rintro (h | h | h) <;> rw [h] at hsl <;> revert hsl <;> decide
    simp only [mode_store]
    rw [if_neg hne]
    refine ⟨?_, ?_, fun _ => rfl⟩
    · constructor
      · intro hacc; exact absurd hacc (by simp)
      · intro hacc; exact absurd hacc hcl
    · intro hacc; exact absurd hacc (by simp)

/-- Witness for the amended C8 theorem at the concrete input "ramp\n". -/
theorem C8_witness :
    Char.ofNat 0 ∉ "ramp\n".toList ∧
    (((mode_store initState "ramp\n".toList).2 = true ↔
      (stripNewline "ramp\n".toList = "normal".toList ∨
        stripNewline "ramp\n".toList = "noisy".toList ∨
        stripNewline "ramp\n".toList = "ramp".toList)) ∧
    ((mode_store initState "ramp\n".toList).2 = true →
      (mode_store initState "ramp\n".toList).1 =
        { initState with mode := stripNewline "ramp\n".toList }) ∧
    ((mode_store initState "ramp\n".toList).2 = false →
      (mode_store initState "ramp\n".toList).1 =
        { initState with stats_last_error := -EINVAL })) :=
  ⟨by decide, C8_mode_store_nulfree initState "ramp\n".toList (by decide)⟩

/-- C9: a successful read delivers exactly one 16-byte packed little-endian
record (timestamp_ns at offset 0, temp_mC at offset 8, flags at offset 12)
and returns 16; flags bit 0 (NEW_SAMPLE) is always set, and flags bit 1
(THRESHOLD_CROSSED) is set iff `temp_mC >= threshold_mC` held at the moment
of materialization. -/
theorem C9_successful_read_record (st : State) (count ts : Nat)
    (h : 16 ≤ count) :
    simtemp_read st false count true ts =
      (simtemp_materialize st,
        .ok (sampleBytes ⟨ts, st.simtemp_current_mC, flagsOf st⟩) 16) ∧
    (sampleBytes ⟨ts, st.simtemp_current_mC, flagsOf st⟩).length = 16 ∧
    Nat.testBit (flagsOf st) 0 = true ∧
    (Nat.testBit (flagsOf st) 1 = true ↔
      st.simtemp_current_mC ≥ st.threshold_mC) := by
  refine ⟨?_, ?_, ?_, ?_⟩
  · simp [simtemp_read, Nat.not_lt.mpr h]
  · simp [sampleBytes, leBytes, s32Bytes]
  · unfold flagsOf
    split_ifs <;> decide
  · by_cases hth : st.simtemp_current_mC ≥ st.threshold_mC
    · have ha : alertOf st = 1 := by unfold alertOf; rw [if_pos hth]
      unfold flagsOf
      rw [if_pos ha]
      simp only [hth, iff_true]
      decide
    · have ha : alertOf st = 0 := by unfold alertOf; rw [if_neg hth]
      unfold flagsOf
      rw [if_neg (by rw [ha]; decide)]
      simp only [hth, iff_false]
      decide

/-- Witness for C9 at the initial state with a 16-byte buffer. -/
theorem C9_witness :
    (16 ≤ 16) ∧
    (simtemp_read initState false 16 true 0 =
      (simtemp_materialize initState,
        .ok (sampleBytes
          ⟨0, initState.simtemp_current_mC, flagsOf initState⟩) 16) ∧
    (sampleBytes
      ⟨0, initState.simtemp_current_mC, flagsOf initState⟩).length = 16 ∧
    Nat.testBit (flagsOf initState) 0 = true ∧
    (Nat.testBit (flagsOf initState) 1 = true ↔
      initState.simtemp_current_mC ≥ initState.threshold_mC)) :=
  ⟨by decide, C9_successful_read_record initState 16 0 (by decide)⟩

/-- C10: in every reachable engine state — the initial state and every state
reached by ticks, configuration writes, and reads — the `updates` counter
equals `sample_seq`: both start at zero and only the tick modifies them,
incrementing both together. -/
theorem C10_updates_eq_sample_seq (s : State) (h : Reachable s) :
    s.stats_updates = s.simtemp_sample_seq := by
  induction h with
  | init => rfl
  | tick r _ ih =>
    simp only [simtemp_update_temp]
    split_ifs <;> simp [ih]
  | set_sampling v _ ih =>
    cases v with
    | none => simpa [sampling_ms_store] using ih
    | some val =>
      simp only [sampling_ms_store]
      split_ifs <;> simpa using ih
  | set_threshold v _ ih =>
    cases v <;> simpa [threshold_mC_store] using ih
  | set_mode buf _ ih =>
    simp only [mode_store]
    split_ifs <;> simpa using ih
  | read intr count copyOk ts _ ih =>
    simp only [simtemp_read, simtemp_materialize]
    split_ifs <;> simpa using ih

/-- Witness for C10 at the initial state. -/
theorem C10_witness :
    Reachable initState ∧
    initState.stats_updates = initState.simtemp_sample_seq :=
  ⟨Reachable.init, C10_updates_eq_sample_seq initState Reachable.init⟩

end Simtemp
